import Mathlib

/-!
Verification development for the `rtime` plugin runtime and its blackboard
key/value store.  The definitions below are a shallow embedding of the Rust
sources:

* `src/interfaces/src/capabilities.rs` — capability tables (fixed capacity 20,
  names stored in a 64-byte zero-padded buffer),
* `src/blackboard/src/lib.rs` — the blackboard store, its subscription
  registry, the notifier and the C ABI entry points,
* `src/loader/src/main.rs` / `src/loader/src/components.rs` — component
  construction, service start order and the dependency resolver `create_caps`.

C strings are modelled as `List UInt8` (the bytes between the pointer and the
terminating NUL).  Raw pointers (callbacks, `user_data`) are modelled as
natural numbers where `0` is the null pointer.  Rust `HashMap`s are modelled
as association lists with update-in-place insertion; the only iteration the
claims depend on is over `Vec`s, whose order the association lists preserve.
A Rust `panic!` / `unwrap` failure is modelled as `Option.none`.
-/

namespace Rtime

/-- A raw machine pointer; `0` models the null pointer. -/
abbrev Ptr := Nat

/-- The byte content of a NUL-terminated C string (without the NUL). -/
abbrev Str := List UInt8

/-- Bytes of an ASCII string literal, used to write concrete inputs. -/
def strBytes (s : String) : Str :=
  s.data.map (fun c => UInt8.ofNat c.toNat)

/-- Association-list lookup, modelling `HashMap::get` / `contains_key`. -/
def lookupA {β : Type} (m : List (Str × β)) (k : Str) : Option β :=
  match m with
  | [] => none
  | p :: rest => if p.1 = k then some p.2 else lookupA rest k

/-- Association-list insert, modelling `HashMap::insert` (update in place if
the key is present, append otherwise). -/
def insertA {β : Type} (m : List (Str × β)) (k : Str) (v : β) : List (Str × β) :=
  match m with
  | [] => [(k, v)]
  | p :: rest => if p.1 = k then (k, v) :: rest else p :: insertA rest k v

/-- Association-list removal, modelling `HashMap::remove`. -/
def removeA {β : Type} (m : List (Str × β)) (k : Str) : List (Str × β) :=
  m.filter (fun p => p.1 ≠ k)

/-- `CAPABILITY_FUNCTION_NAME_LEN` from `caps.h` (the bindgen constant used by
`interfaces/src/capabilities.rs`; the spec fixes it at 64). -/
def CAPABILITY_FUNCTION_NAME_LEN : Nat := 64

/-- A capability: the bytes actually stored in the fixed-size name buffer
(the remainder of the buffer is zero) and the function pointer.
Mirrors `interfaces::capabilities::Capability` / `bindings::Capability`. -/
structure Capability where
  name : Str
  func : Ptr
deriving DecidableEq

/-- `Capability::new`: copies at most `CAPABILITY_FUNCTION_NAME_LEN - 1` name
bytes (leaving space for the NUL terminator), truncating longer names. -/
def Capability.make (name : Str) (func : Ptr) : Capability :=
  let nameLen :=
    if name.length + 1 > CAPABILITY_FUNCTION_NAME_LEN then
      CAPABILITY_FUNCTION_NAME_LEN - 1
    else
      name.length
  { name := name.take nameLen, func := func }

/-- `capability_name`: reads the stored name buffer up to the first zero byte. -/
def capabilityName (c : Capability) : Str :=
  c.name.takeWhile (fun b => b ≠ 0)

/-- A capability table: the used entries of the fixed-capacity (20) array.
Mirrors `interfaces::capabilities::Capabilities`. -/
structure Capabilities where
  capability : List Capability
deriving DecidableEq

/-- `Capabilities::new` — empty table. -/
def Capabilities.empty : Capabilities := ⟨[]⟩

/-- `Capabilities::add`: appends if fewer than 20 entries are used, otherwise
silently drops the entry. -/
def Capabilities.add (cs : Capabilities) (c : Capability) : Capabilities :=
  if cs.capability.length < 20 then ⟨cs.capability ++ [c]⟩ else cs

/-- `Capabilities::get`: linear scan over the used entries, first entry whose
(unpadded) name equals the query.  (The source compares lengths first and then
the strings; the conjunction is plain equality.) -/
def Capabilities.get (cs : Capabilities) (name : Str) : Option Capability :=
  cs.capability.find? (fun c => capabilityName c = name)

/-- `Capabilities::len` — the used-entry count `n_capabilities`. -/
def Capabilities.len (cs : Capabilities) : Nat :=
  cs.capability.length

/-- A stored blackboard value: the runtime-typed `Box<dyn Any>` payloads the
five typed setters store (`String`, `i32`, `f32`, `f64`, `bool`).  Float
payloads are carried as their raw bit patterns; no claim inspects them. -/
inductive Value where
  | vStr (v : Str)
  | vInt (v : Int)
  | vFloat (bits : UInt32)
  | vDouble (bits : UInt64)
  | vBool (v : Bool)
deriving DecidableEq

/-- The state behind the blackboard singleton: mirrors `BlackBoardData`
(`data`, `listener`, `user_data`, `key_to_listener`). -/
structure BlackBoardData where
  data : List (Str × Value)
  listener : Capabilities
  user_data : List (Str × Ptr)
  key_to_listener : List (Str × List Str)
deriving DecidableEq

/-- `BlackBoardData::new`. -/
def BlackBoardData.empty : BlackBoardData :=
  { data := [], listener := Capabilities.empty, user_data := [], key_to_listener := [] }

/-- The listener identifier `format!("{}_{}", key, component)`. -/
def listenerKey (key component : Str) : Str :=
  key ++ strBytes "_" ++ component

/-- Common tail of `BlackBoardData::subscribe`: adds the capability for the
listener and stores `user_data` when it is non-null. -/
def subscribeFinish (d : BlackBoardData) (lk : Str) (callback user_data : Ptr) :
    BlackBoardData :=
  let d1 := { d with listener := d.listener.add (Capability.make lk callback) }
  if user_data ≠ 0 then
    { d1 with user_data := insertA d1.user_data lk user_data }
  else
    d1

/-- `BlackBoardData::subscribe`.  A null callback returns without registering
anything; a duplicate `(key, component)` registration is a no-op; otherwise
the listener id is recorded under the key and the callback is appended to the
listener capability table. -/
def BlackBoardData.subscribe (d : BlackBoardData) (key component : Str)
    (callback user_data : Ptr) : BlackBoardData :=
  let lk := listenerKey key component
  if callback = 0 then d
  else
    match lookupA d.key_to_listener key with
    | none =>
        subscribeFinish
          { d with key_to_listener := insertA d.key_to_listener key [lk] }
          lk callback user_data
    | some ls =>
        if lk ∈ ls then d
        else
          subscribeFinish
            { d with key_to_listener := insertA d.key_to_listener key (ls ++ [lk]) }
            lk callback user_data

/-- `BlackBoardData::unsubscribe`: removes the listener id from the key's
list (dropping the key when the list becomes empty) and drops the stored
`user_data`; the listener capability entry is deliberately left behind
("we need to remove the capability, too. but we do it later"). -/
def BlackBoardData.unsubscribe (d : BlackBoardData) (key component : Str) :
    BlackBoardData :=
  let lk := listenerKey key component
  match lookupA d.key_to_listener key with
  | none => d
  | some ls =>
      let ls2 := ls.filter (fun x => x ≠ lk)
      let ktl :=
        if ls2.length = 0 then removeA d.key_to_listener key
        else insertA d.key_to_listener key ls2
      { d with key_to_listener := ktl, user_data := removeA d.user_data lk }

/-- The `user_data` argument `notify` passes to a listener: the stored pointer
when present and non-null, else null. -/
def notifyUd (d : BlackBoardData) (lk : Str) : Ptr :=
  match lookupA d.user_data lk with
  | some p => if p ≠ 0 then p else 0
  | none => 0

/-- One step of the `notify` loop: resolve the listener id to the first
capability with that name (`self.listener.get(listener).unwrap()`) and to the
callback pointer (`cap.get().unwrap()`, which fails on a null pointer).
`none` models the `unwrap` panic. -/
def notifyOne (d : BlackBoardData) (lk : Str) : Option (Ptr × Ptr) :=
  match d.listener.get lk with
  | none => none
  | some cap => if cap.func = 0 then none else some (cap.func, notifyUd d lk)

/-- `BlackBoardData::notify`: returns the list of `(callback, user_data)`
invocations a set on `key` performs, in listener-registration order, or `none`
if the loop panics. -/
def BlackBoardData.notify (d : BlackBoardData) (key : Str) :
    Option (List (Ptr × Ptr)) :=
  match lookupA d.key_to_listener key with
  | none => some []
  | some ls => ls.mapM (notifyOne d)

/-- `BlackBoardData::set`: create-or-overwrite the entry, then notify the
key's subscribers.  Returns the new state and the callback invocations. -/
def BlackBoardData.set (d : BlackBoardData) (key : Str) (v : Value) :
    Option (BlackBoardData × List (Ptr × Ptr)) :=
  let d1 := { d with data := insertA d.data key v }
  (d1.notify key).map (fun invs => (d1, invs))

/-- `BlackBoardData::reset`: `self.data.clear()`. -/
def BlackBoardData.reset (d : BlackBoardData) : BlackBoardData :=
  { d with data := [] }

/-- `BlackBoardData::is_key_valid`. -/
def BlackBoardData.is_key_valid (d : BlackBoardData) (key : Str) : Bool :=
  (lookupA d.data key).isSome

/-- The state behind the `SINGLETON: OnceCell<Mutex<Option<BlackBoardData>>>`:
`none` is the stopped store, `some d` the started store. -/
abbrev ServerState := Option BlackBoardData

/-- One `{key, value}` attribute entry (`interfaces::blackboard::BlackboardEntry`). -/
structure BlackboardEntry where
  key : Str
  value : Value
deriving DecidableEq

namespace Blackboard

/-- Result of an ABI call that may change the store and fire callbacks:
the returned `c_int`, the store state afterwards, and the callback
invocations performed (empty for every operation whose body contains no
callback call). -/
structure CallResult where
  ret : Int
  state : ServerState
  invs : List (Ptr × Ptr)
deriving DecidableEq

/-- `start_server` composed with the `extern "C" start` wrapper.  The
`attributes` argument carries the null pointer as `none`, and otherwise the
outcome of the external YAML parse (`serde_yml::from_str`): the parsed
`Vec<BlackboardEntry>` on success.  Note the order in the source: the
singleton is replaced by a fresh `BlackBoardData` *before* the attributes are
parsed, and a parse failure returns `Err` without restoring `None`.
`none` models a panic inside the initial-set loop (impossible on a fresh
store, where no subscribers exist). -/
def start (st : ServerState)
    (attributes : Option (Except Unit (List BlackboardEntry))) :
    Option (Int × ServerState) :=
  match st with
  | some d => some (-1, some d)
  | none =>
      match attributes with
      | none => some (0, some BlackBoardData.empty)
      | some (Except.error _) => some (-1, some BlackBoardData.empty)
      | some (Except.ok entries) =>
          (entries.foldlM
            (fun d e => (BlackBoardData.set d e.key e.value).map Prod.fst)
            BlackBoardData.empty).map
            (fun d => (0, some d))

/-- `extern "C" stop`: unconditionally drops the store and returns 0. -/
def stop (st : ServerState) : CallResult :=
  let _ := st
  { ret := 0, state := none, invs := [] }

/-- `reset_intern` composed with the `extern "C" reset` wrapper. -/
def reset (st : ServerState) : CallResult :=
  match st with
  | none => { ret := -1, state := st, invs := [] }
  | some d => { ret := 0, state := some d.reset, invs := [] }

/-- `size_intern`: `Ok(data.len())` on a running store. -/
def size_intern (st : ServerState) : Option Nat :=
  match st with
  | none => none
  | some d => some d.data.length

/-- `extern "C" size`: the entry count, or -1 when the store is stopped. -/
def size (st : ServerState) : Int :=
  match size_intern st with
  | some n => (n : Int)
  | none => -1

/-- `set_string_intern` composed with the `extern "C" set_string` wrapper.
Null key or null value fail with -1; `none` models a notify panic. -/
def set_string (st : ServerState) (ckey cvalue : Option Str) :
    Option CallResult :=
  match ckey with
  | none => some { ret := -1, state := st, invs := [] }
  | some key =>
      match cvalue with
      | none => some { ret := -1, state := st, invs := [] }
      | some v =>
          match st with
          | none => some { ret := -1, state := st, invs := [] }
          | some d =>
              (d.set key (Value.vStr v)).map
                (fun r => { ret := 0, state := some r.1, invs := r.2 })

/-- `set_int_intern` composed with the `extern "C" set_int` wrapper. -/
def set_int (st : ServerState) (ckey : Option Str) (v : Int) :
    Option CallResult :=
  match ckey with
  | none => some { ret := -1, state := st, invs := [] }
  | some key =>
      match st with
      | none => some { ret := -1, state := st, invs := [] }
      | some d =>
          (d.set key (Value.vInt v)).map
            (fun r => { ret := 0, state := some r.1, invs := r.2 })

/-- `get_string_intern` composed with the `extern "C" get_string` wrapper.
`cvalue` is the caller's output buffer (its current bytes) or `none` for the
null pointer.  On success the first `len(V)` bytes of the buffer are
overwritten by `copy_nonoverlapping` and `len(V) + 1` is returned; no
terminating NUL is written.  The result is the returned `c_int` and the
buffer contents after the call. -/
def get_string (st : ServerState) (ckey : Option Str) (cvalue : Option Str) :
    Int × Option Str :=
  match ckey with
  | none => (-1, cvalue)
  | some key =>
      match st with
      | none => (-1, cvalue)
      | some d =>
          if d.is_key_valid key then
            match lookupA d.data key with
            | some (Value.vStr v) =>
                let buf :=
                  match cvalue with
                  | none => none
                  | some b => some (v ++ b.drop v.length)
                (((v.length : Int) + 1), buf)
            | _ => (-1, cvalue)
          else (-1, cvalue)

/-- `get_int_intern` composed with the `extern "C" get_int` wrapper: the
returned `c_int` and the value written through the out pointer. -/
def get_int (st : ServerState) (ckey : Option Str) : Int × Option Int :=
  match ckey with
  | none => (-1, none)
  | some key =>
      match st with
      | none => (-1, none)
      | some d =>
          if d.is_key_valid key then
            match lookupA d.data key with
            | some (Value.vInt v) => (0, some v)
            | _ => (-1, none)
          else (-1, none)

/-- `subscribe_intern` composed with the `extern "C" subscribe` wrapper.
Note that the intern function returns `Ok(())` (hence 0) even when the
callback is null and `BlackBoardData::subscribe` registered nothing. -/
def subscribe (st : ServerState) (key component : Str)
    (callback user_data : Ptr) : CallResult :=
  match st with
  | none => { ret := -1, state := st, invs := [] }
  | some d =>
      { ret := 0, state := some (d.subscribe key component callback user_data),
        invs := [] }

/-- `unsubscribe_intern` composed with the `extern "C" unsubscribe` wrapper. -/
def unsubscribe (st : ServerState) (key component : Str) : CallResult :=
  match st with
  | none => { ret := -1, state := st, invs := [] }
  | some d =>
      { ret := 0, state := some (d.unsubscribe key component), invs := [] }

end Blackboard

namespace Loader

/-- `RTLibraryType` from `loader/src/rtlibrary.rs`. -/
inductive RTLibraryType where
  | Service
  | Skill
deriving DecidableEq

/-- One `provides` entry: capability name and exporting symbol. -/
structure RTCapabilityInfo where
  capability : Str
  entry : Str
deriving DecidableEq

/-- `RTLibrarySummary`: the parsed plugin descriptor. -/
structure RTLibrarySummary where
  name : Str
  library_type : RTLibraryType
  provides : Option (List RTCapabilityInfo)
  requires : Option (List Str)
deriving DecidableEq

/-- A loaded plugin: its descriptor and the exported symbol table of the
loaded shared object (modelling `libloading::Library::get`). -/
structure RTLibrary where
  summary : RTLibrarySummary
  symbols : List (Str × Ptr)
deriving DecidableEq

/-- `ComponentsType`: a library wrapped as a Service or Skill, carrying the
`requires` list taken from the summary (empty when absent). -/
inductive ComponentsType where
  | service (library : RTLibrary) (requires : List Str)
  | skill (library : RTLibrary) (requires : List Str)
deriving DecidableEq

/-- The wrapped library of a component. -/
def ComponentsType.library : ComponentsType → RTLibrary
  | .service lib _ => lib
  | .skill lib _ => lib

/-- `Service::new` / `Skill::new` applied to one library. -/
def toComponent (lib : RTLibrary) : ComponentsType :=
  match lib.summary.library_type with
  | .Service => .service lib (lib.summary.requires.getD [])
  | .Skill => .skill lib (lib.summary.requires.getD [])

/-- `Components::new`: `while let Some(lib) = libraries.pop()` pushes the
libraries in reverse load order into `inner`. -/
def componentsNew (libraries : List RTLibrary) : List ComponentsType :=
  libraries.reverse.map toComponent

/-- `Components::start_services` iterates `self.inner.iter().rev()` and calls
`start` on every Service; this is the sequence of service names whose `start`
entry is invoked, in invocation order. -/
def startServicesOrder (inner : List ComponentsType) : List Str :=
  inner.reverse.filterMap (fun c =>
    match c with
    | .service lib _ => some lib.summary.name
    | .skill _ _ => none)

/-- The service start order the runtime produces for a configured load
order: `Components::new` followed by `start_services`. -/
def runtimeStartOrder (libraries : List RTLibrary) : List Str :=
  startServicesOrder (componentsNew libraries)

/-- `get_capability_fn`: resolve the `entry` symbol in the plugin's image. -/
def get_capability_fn (library : RTLibrary) (entry : Str) : Option Ptr :=
  lookupA library.symbols entry

/-- The `libraries.iter().find(...)` by summary name inside `create_caps`. -/
def findComponent (libraries : List ComponentsType) (name : Str) :
    Option ComponentsType :=
  libraries.find? (fun c => c.library.summary.name = name)

/-- The inner `for capability in provides` loop of `create_caps`: resolve
every entry symbol and append a capability; an unresolved symbol is the
`panic!("System configuration error...")`, modelled as `none`. -/
def addProvides (caps : Capabilities) (library : RTLibrary)
    (provides : List RTCapabilityInfo) : Option Capabilities :=
  provides.foldlM
    (fun acc info =>
      match get_capability_fn library info.entry with
      | none => none
      | some fn => some (acc.add (Capability.make info.capability fn)))
    caps

/-- The `for require_lib in requires` loop of `create_caps`, with the running
`caps` accumulator.  A required name with no loaded plugin is only warned
about and skipped (`continue`); a found plugin with `provides == None` hits
`provides.as_ref().unwrap()` and panics (`none`). -/
def createCapsGo (caps : Capabilities) :
    List Str → List ComponentsType → Option Capabilities
  | [], _ => some caps
  | r :: rest, libraries =>
      match findComponent libraries r with
      | none => createCapsGo caps rest libraries
      | some comp =>
          match comp.library.summary.provides with
          | none => none
          | some provides =>
              match addProvides caps comp.library provides with
              | none => none
              | some caps2 => createCapsGo caps2 rest libraries

/-- `create_caps` from `loader/src/main.rs` / `loader/src/components.rs`. -/
def create_caps (requires : List Str) (libraries : List ComponentsType) :
    Option Capabilities :=
  createCapsGo Capabilities.empty requires libraries

end Loader

namespace Fixtures

open Loader

/-- The `provides` list declared by `SUMMARY_MESSAGE` in
`blackboard/src/lib.rs`, in declaration order. -/
def blackboardProvides : List RTCapabilityInfo :=
  [ ⟨strBytes "blackboard_start", strBytes "start"⟩,
    ⟨strBytes "blackboard_stop", strBytes "stop"⟩,
    ⟨strBytes "blackboard_reset", strBytes "reset"⟩,
    ⟨strBytes "blackboard_size", strBytes "size"⟩,
    ⟨strBytes "blackboard_get_string", strBytes "get_string"⟩,
    ⟨strBytes "blackboard_set_string", strBytes "set_string"⟩,
    ⟨strBytes "blackboard_get_int", strBytes "get_int"⟩,
    ⟨strBytes "blackboard_set_int", strBytes "set_int"⟩,
    ⟨strBytes "blackboard_get_bool", strBytes "get_bool"⟩,
    ⟨strBytes "blackboard_set_bool", strBytes "set_bool"⟩,
    ⟨strBytes "blackboard_get_float", strBytes "get_float"⟩,
    ⟨strBytes "blackboard_set_float", strBytes "set_float"⟩,
    ⟨strBytes "blackboard_get_double", strBytes "get_double"⟩,
    ⟨strBytes "blackboard_set_double", strBytes "set_double"⟩,
    ⟨strBytes "blackboard_as_json_schema", strBytes "as_json_schema"⟩,
    ⟨strBytes "blackboard_subscribe", strBytes "subscribe"⟩,
    ⟨strBytes "blackboard_unsubscribe", strBytes "unsubscribe"⟩ ]

/-- The exported symbols of the built blackboard plugin (every `#[no_mangle]
extern "C"` function in `blackboard/src/lib.rs`), with distinct non-null
model addresses. -/
def blackboardSymbols : List (Str × Ptr) :=
  [ (strBytes "start", 1), (strBytes "stop", 2), (strBytes "reset", 3),
    (strBytes "size", 4), (strBytes "get_string", 5), (strBytes "set_string", 6),
    (strBytes "get_int", 7), (strBytes "set_int", 8), (strBytes "get_bool", 9),
    (strBytes "set_bool", 10), (strBytes "get_float", 11),
    (strBytes "set_float", 12), (strBytes "get_double", 13),
    (strBytes "set_double", 14), (strBytes "as_json_schema", 15),
    (strBytes "subscribe", 16), (strBytes "unsubscribe", 17),
    (strBytes "summary", 18) ]

/-- The loaded blackboard plugin. -/
def blackboardLibrary : RTLibrary :=
  { summary :=
      { name := strBytes "blackboard", library_type := .Service,
        provides := some blackboardProvides, requires := none },
    symbols := blackboardSymbols }

/-- The loaded webinterface plugin (its `SUMMARY_MESSAGE` declares two
provides and requires `["blackboard"]`). -/
def webinterfaceLibrary : RTLibrary :=
  { summary :=
      { name := strBytes "webinterface", library_type := .Service,
        provides := some
          [ ⟨strBytes "webinterface_start", strBytes "start"⟩,
            ⟨strBytes "webinterface_stop", strBytes "stop"⟩ ],
        requires := some [strBytes "blackboard"] },
    symbols := [ (strBytes "start", 21), (strBytes "stop", 22),
                 (strBytes "summary", 23) ] }

/-- The two-plugin configuration of the `test_create_caps` scenario. -/
def demoComponents : List ComponentsType :=
  componentsNew [blackboardLibrary, webinterfaceLibrary]

end Fixtures

/-! ### Helper lemmas -/

/-- A successful `mapM` over `Option` is the pointwise map. -/
theorem mapM_option_eq_map {α β : Type} (f : α → Option β) (z : β) :
    ∀ (ls : List α) (ys : List β), ls.mapM f = some ys →
      ys = ls.map (fun x => (f x).getD z) := by
  intro ls
  induction ls with
  | nil =>
      intro ys h
      simp only [List.mapM_nil, pure, Option.some.injEq] at h
      simp [← h]
  | cons a l ih =>
      intro ys h
      rw [List.mapM_cons] at h
      cases hfa : f a with
      | none => rw [hfa] at h; simp [bind] at h
      | some b =>
          rw [hfa] at h
          cases hl : l.mapM f with
          | none => rw [hl] at h; simp [bind] at h
          | some bs =>
              rw [hl] at h
              simp only [bind, Option.bind, pure, Option.some.injEq] at h
              subst h
              simp [hfa, ih bs hl]

/-- A list all of whose bytes are nonzero is read back unchanged from the
zero-padded name buffer. -/
theorem takeWhile_ne_zero (l : Str) (h : ∀ b ∈ l, b ≠ 0) :
    l.takeWhile (fun b => b ≠ 0) = l := by
  refine List.takeWhile_eq_self_iff.mpr ?_
  intro x hx
  simpa using h x hx

/-- A name that fits the buffer (leaving room for the NUL) and contains no
zero byte round-trips through `Capability::new` and `capability_name`. -/
theorem capabilityName_make (lk : Str) (cb : Ptr)
    (hlen : lk.length < CAPABILITY_FUNCTION_NAME_LEN)
    (hz : ∀ b ∈ lk, b ≠ 0) :
    capabilityName (Capability.make lk cb) = lk := by
  unfold capabilityName Capability.make
  have hnotgt : ¬(lk.length + 1 > CAPABILITY_FUNCTION_NAME_LEN) := by omega
  simp only [hnotgt, if_neg, ite_false, List.take_length]
  exact takeWhile_ne_zero lk hz

/-- The function pointer stored by `Capability::new` is the one given. -/
theorem Capability.make_func (name : Str) (f : Ptr) :
    (Capability.make name f).func = f := rfl

/-- Two listener keys with the same concatenation and the same key part have
the same component part. -/
theorem listenerKey_inj_component (k c1 c2 : Str)
    (h : listenerKey k c1 = listenerKey k c2) : c1 = c2 := by
  unfold listenerKey at h
  exact List.append_cancel_left h

/-! ### Claim C2 — start with unparsable attributes -/

/-- Claim C2 counterexample: starting the stopped store with attributes that
fail to parse returns -1, but the store is *not* back in the stopped state:
it is left started and empty, so a subsequent `size` succeeds with 0 and a
subsequent `start` with valid attributes fails with `AlreadyRunning`. -/
theorem start_badAttributes_counterexample :
    Blackboard.start none (some (Except.error ())) =
      some (-1, some BlackBoardData.empty) ∧
    some BlackBoardData.empty ≠ (none : ServerState) ∧
    Blackboard.size (some BlackBoardData.empty) = 0 ∧
    Blackboard.start (some BlackBoardData.empty) (some (Except.ok [])) =
      some (-1, some BlackBoardData.empty) := by
  refine ⟨rfl, by simp, rfl, rfl⟩

/-- Claim C2 amended: on a parse failure `start` returns a negative value,
but the store is left in the *started* state with no entries (the singleton
was replaced before parsing and is not rolled back): subsequent `size`
returns 0, subsequent sets succeed, and any subsequent `start` fails with
`AlreadyRunning`, leaving the state unchanged. -/
theorem start_badAttributes_leaves_store_running :
    (∀ e : Unit,
      Blackboard.start none (some (Except.error e)) =
        some (-1, some BlackBoardData.empty)) ∧
    Blackboard.size (some BlackBoardData.empty) = 0 ∧
    (∀ (k : Str) (v : Int),
      Blackboard.set_int (some BlackBoardData.empty) (some k) v =
        some { ret := 0,
               state := some { BlackBoardData.empty with data := [(k, Value.vInt v)] },
               invs := [] }) ∧
    (∀ (d : BlackBoardData) (attrs : Option (Except Unit (List BlackboardEntry))),
      Blackboard.start (some d) attrs = some (-1, some d)) := by
  refine ⟨fun e => rfl, rfl, fun k v => ?_, fun d attrs => rfl⟩
  simp [Blackboard.set_int, BlackBoardData.set, BlackBoardData.notify,
    BlackBoardData.empty, insertA, lookupA]

/-! ### Claim C3 — service start order -/

/-- Claim C3 counterexample: with two Services loaded in the order
`[blackboard, webinterface]`, the runtime starts them in exactly that load
order, not in the reverse order the claim asserts. -/
theorem start_order_counterexample :
    Loader.runtimeStartOrder [Fixtures.blackboardLibrary, Fixtures.webinterfaceLibrary] =
      [strBytes "blackboard", strBytes "webinterface"] ∧
    [strBytes "blackboard", strBytes "webinterface"] ≠
      [strBytes "webinterface", strBytes "blackboard"] := by
  constructor
  · rfl
  · decide

/-- Claim C3 amended: `Components::new` reverses the load order (it pops from
the back of the library vector) and `start_services` iterates the component
vector reversed again, so the two reversals cancel: Services are started in
*load order* — a Service declared earlier in the config is started before
every Service declared later. -/
theorem start_order_is_load_order :
    ∀ (libraries : List Loader.RTLibrary),
      Loader.runtimeStartOrder libraries =
        libraries.filterMap (fun lib =>
          match lib.summary.library_type with
          | .Service => some lib.summary.name
          | .Skill => none) := by
  intro libraries
  unfold Loader.runtimeStartOrder Loader.startServicesOrder Loader.componentsNew
  rw [List.map_reverse, List.reverse_reverse, List.filterMap_map]
  refine List.filterMap_congr ?_
  intro lib _
  unfold Loader.toComponent
  cases h : lib.summary.library_type <;> simp [h]

/-! ### Claim C4 — missing required plugin -/

/-- Claim C4 counterexample: resolving a requires list naming a plugin that
is not loaded is not fatal — `create_caps` returns normally (no panic) with a
table that simply lacks that plugin's capabilities. -/
theorem create_caps_missing_require_counterexample :
    Loader.create_caps [strBytes "ghost"] Fixtures.demoComponents =
      some Capabilities.empty ∧
    some Capabilities.empty ≠ (none : Option Capabilities) ∧
    Capabilities.len Capabilities.empty = 0 := by
  refine ⟨rfl, by simp, rfl⟩

/-- Claim C4 amended: a required name with no loaded plugin of that name is
*skipped with a warning* — `create_caps` continues with the remaining
requires and hands the plugin a table missing that plugin's capabilities.
(Only a missing `entry` symbol, or a found plugin without a `provides` list,
panics and aborts startup.) -/
theorem create_caps_skips_missing_require :
    ∀ (r : Str) (rest : List Str) (libraries : List Loader.ComponentsType),
      Loader.findComponent libraries r = none →
      Loader.create_caps (r :: rest) libraries =
        Loader.create_caps rest libraries := by
  intro r rest libraries h
  unfold Loader.create_caps
  rw [Loader.createCapsGo, h]

/-- Witness for `create_caps_skips_missing_require` at a concrete input. -/
theorem create_caps_skips_missing_require_witness :
    Loader.create_caps [strBytes "ghost", strBytes "blackboard"] Fixtures.demoComponents =
      Loader.create_caps [strBytes "blackboard"] Fixtures.demoComponents :=
  create_caps_skips_missing_require (strBytes "ghost") [strBytes "blackboard"]
    Fixtures.demoComponents (by decide)

/-! ### Claim C6 — capability table for a plugin requiring the blackboard -/

/-- Claim C6 counterexample: the blackboard's declared `provides` list has 17
entries (not 16), and the resolver builds a capability table of size 17 for a
plugin whose requires list is `["blackboard"]`. -/
theorem create_caps_blackboard_counterexample :
    (Loader.create_caps [strBytes "blackboard"] Fixtures.demoComponents).map
        Capabilities.len = some 17 ∧
    Fixtures.blackboardProvides.length = 17 ∧
    ¬((Loader.create_caps [strBytes "blackboard"] Fixtures.demoComponents).map
        Capabilities.len = some 16) := by
  refine ⟨by decide, by decide, by decide⟩

/-- Claim C6 amended: for a plugin whose requires list is `["blackboard"]`
the resolver builds a capability table whose count equals 17, the number of
entries in the blackboard's declared `provides` list, and which contains a
capability named `blackboard_set_string`. -/
theorem create_caps_blackboard_table :
    (Loader.create_caps [strBytes "blackboard"] Fixtures.demoComponents).map
        Capabilities.len = some Fixtures.blackboardProvides.length ∧
    ((Loader.create_caps [strBytes "blackboard"] Fixtures.demoComponents).bind
        (fun caps => caps.get (strBytes "blackboard_set_string"))).isSome = true := by
  refine ⟨by decide, by decide⟩

/-! ### Claim C7 — reset empties entries and preserves subscribers -/

/-- Claim C7: on every started store `reset` succeeds, leaves `size() == 0`,
and changes nothing else — the listener table, the stored `user_data` and the
key-to-listener registry all survive, so a subsequent set on a subscribed key
produces exactly the invocations it produced before the reset. -/
theorem reset_preserves_subscribers :
    ∀ (d : BlackBoardData),
      Blackboard.reset (some d) =
        { ret := 0, state := some d.reset, invs := [] } ∧
      Blackboard.size (some d.reset) = 0 ∧
      d.reset.listener = d.listener ∧
      d.reset.user_data = d.user_data ∧
      d.reset.key_to_listener = d.key_to_listener ∧
      (∀ (k : Str) (v : Value),
        (d.reset.set k v).map Prod.snd = d.notify k) ∧
      (∀ (k : Str) (v : Value),
        (d.set k v).map Prod.snd = d.notify k) := by
  intro d
  refine ⟨rfl, rfl, rfl, rfl, rfl, fun k v => ?_, fun k v => ?_⟩ <;>
    simp [BlackBoardData.set, BlackBoardData.reset, Option.map_map,
      Function.comp] <;> rfl

/-! ### Claim C8 — subscribe with a null callback -/

/-- Claim C8 counterexample: subscribing with a null callback on a started
store creates no registration but still returns 0 (success), not a negative
value. -/
theorem subscribe_null_callback_counterexample :
    Blackboard.subscribe (some BlackBoardData.empty) (strBytes "k")
        (strBytes "c") 0 7 =
      { ret := 0, state := some BlackBoardData.empty, invs := [] } ∧
    ¬((0 : Int) < 0) := by
  refine ⟨?_, by decide⟩
  simp [Blackboard.subscribe, BlackBoardData.subscribe]

/-- Claim C8 amended: a null callback is rejected only in the sense that no
subscriber registration is created — the store is unchanged — but the call
still returns 0 (success), because `BlackBoardData::subscribe` returns `()`
after logging and `subscribe_intern` maps that to `Ok`. -/
theorem subscribe_null_callback_returns_zero :
    ∀ (d : BlackBoardData) (key component : Str) (user_data : Ptr),
      Blackboard.subscribe (some d) key component 0 user_data =
        { ret := 0, state := some d, invs := [] } := by
  intro d key component user_data
  simp [Blackboard.subscribe, BlackBoardData.subscribe]

/-! ### Claim C1 — get_string two-call pattern -/

/-- Claim C1 counterexample: on a store holding the string `"hi"` under
`"k"`, calling `get_string` with a buffer of the advertised size 3 whose
bytes are `[1, 1, 1]` returns 3 and leaves the buffer as
`['h', 'i', 1]` — the bytes of the value are copied but no trailing NUL
byte is written, so the buffer is not `V` followed by NUL. -/
theorem get_string_no_nul_counterexample :
    Blackboard.get_string
        (some { BlackBoardData.empty with
                  data := [(strBytes "k", Value.vStr (strBytes "hi"))] })
        (some (strBytes "k")) (some [1, 1, 1]) =
      (3, some [104, 105, 1]) ∧
    ([104, 105, 1] : Str) ≠ strBytes "hi" ++ [0] := by
  refine ⟨by decide, by decide⟩

/-- Claim C1 amended: for a started store holding string value `V` under key
`k`, `get_string(k, null)` returns `len(V) + 1`, and `get_string(k, buf)`
with a buffer of that size returns the same number and overwrites the first
`len(V)` bytes of `buf` with the bytes of `V`, leaving the final byte of the
buffer unchanged — the trailing NUL is *not* written by the call, so the
final byte is NUL exactly when the caller zero-initialized the buffer (as
the repository's tests do). -/
theorem get_string_two_call_sizing :
    ∀ (d : BlackBoardData) (k v b : Str),
      lookupA d.data k = some (Value.vStr v) →
      b.length = v.length + 1 →
      Blackboard.get_string (some d) (some k) none =
        ((v.length : Int) + 1, none) ∧
      Blackboard.get_string (some d) (some k) (some b) =
        ((v.length : Int) + 1, some (v ++ b.drop v.length)) ∧
      Blackboard.get_string (some d) (some k)
          (some (List.replicate (v.length + 1) (0 : UInt8))) =
        ((v.length : Int) + 1, some (v ++ [0])) := by
  intro d k v b hk hb
  have hvalid : d.is_key_valid k = true := by
    simp [BlackBoardData.is_key_valid, hk]
  refine ⟨?_, ?_, ?_⟩ <;>
    simp [Blackboard.get_string, hvalid, hk, List.drop_replicate]

/-- Witness for `get_string_two_call_sizing`: the store holding `"hi"` under
`"k"`, read with a garbage-initialized buffer of size 3. -/
theorem get_string_two_call_sizing_witness :
    Blackboard.get_string
        (some { BlackBoardData.empty with
                  data := [(strBytes "k", Value.vStr (strBytes "hi"))] })
        (some (strBytes "k")) none = (3, none) ∧
    Blackboard.get_string
        (some { BlackBoardData.empty with
                  data := [(strBytes "k", Value.vStr (strBytes "hi"))] })
        (some (strBytes "k")) (some [9, 9, 9]) =
      (3, some (strBytes "hi" ++ [9])) ∧
    Blackboard.get_string
        (some { BlackBoardData.empty with
                  data := [(strBytes "k", Value.vStr (strBytes "hi"))] })
        (some (strBytes "k")) (some (List.replicate 3 (0 : UInt8))) =
      (3, some (strBytes "hi" ++ [0])) := by
  have h := get_string_two_call_sizing
    { BlackBoardData.empty with
        data := [(strBytes "k", Value.vStr (strBytes "hi"))] }
    (strBytes "k") (strBytes "hi") [9, 9, 9] (by decide) (by decide)
  exact h

/-! ### Claim C5 — when callbacks fire -/

/-- The store used by the C5 counterexample: on a started store the sequence
`subscribe("k", "c", cb 1, ud 3); unsubscribe("k", "c");
subscribe("k", "c", cb 2, ud 5)` leaves `(k, c)`'s current registration with
callback 2, while the stale capability for callback 1 is still first in the
listener table. -/
def staleListenerStore : BlackBoardData :=
  ((BlackBoardData.empty.subscribe (strBytes "k") (strBytes "c") 1 3).unsubscribe
      (strBytes "k") (strBytes "c")).subscribe (strBytes "k") (strBytes "c") 2 5

/-- Claim C5 counterexample: a successful `set_int` on `"k"` performs exactly
one invocation, of the stale callback 1 — the current subscriber of
`("k", "c")`, registered with callback 2, is *not* invoked, refuting
"every successful set invokes each current subscriber of k exactly once". -/
theorem set_invokes_stale_callback_counterexample :
    Blackboard.set_int (some staleListenerStore) (some (strBytes "k")) 7 =
      some { ret := 0,
             state := some { staleListenerStore with
                               data := [(strBytes "k", Value.vInt 7)] },
             invs := [(1, 5)] } ∧
    (2, 5) ∉ [((1 : Ptr), (5 : Ptr))] := by
  refine ⟨by decide, by decide⟩

/-- Claim C5 amended: a callback invocation happens only during a successful
set.  A successful set on key `k` performs exactly one invocation per
listener id currently registered for `k`, in registration order — each
resolved to the *first* capability in the listener table bearing that id's
name (which is the subscriber's current callback unless a stale entry with
the same name precedes it).  A failed set (null key or stopped store)
performs no invocation, and neither do `reset`, `stop`, `subscribe` and
`unsubscribe`, whose bodies contain no callback call. -/
theorem set_notification_contract :
    (∀ (d : BlackBoardData) (k : Str) (v : Value) (d' : BlackBoardData)
        (invs : List (Ptr × Ptr)),
      d.set k v = some (d', invs) →
      d' = { d with data := insertA d.data k v } ∧
      invs = ((lookupA d.key_to_listener k).getD []).map
        (fun lk => (notifyOne d lk).getD (0, 0))) ∧
    (∀ (st : ServerState) (v : Int),
      Blackboard.set_int st none v = some { ret := -1, state := st, invs := [] }) ∧
    (∀ (k : Str) (v : Int),
      Blackboard.set_int none (some k) v =
        some { ret := -1, state := none, invs := [] }) ∧
    (∀ (st : ServerState),
      (Blackboard.reset st).invs = [] ∧ (Blackboard.stop st).invs = []) ∧
    (∀ (st : ServerState) (key component : Str) (cb ud : Ptr),
      (Blackboard.subscribe st key component cb ud).invs = []) ∧
    (∀ (st : ServerState) (key component : Str),
      (Blackboard.unsubscribe st key component).invs = []) := by
  refine ⟨?_, ?_, ?_, ?_, ?_, ?_⟩
  · intro d k v d' invs h
    unfold BlackBoardData.set at h
    simp only [Option.map_eq_some'] at h
    obtain ⟨invs0, hn, heq⟩ := h
    injection heq with hd hi
    subst hd
    subst hi
    refine ⟨rfl, ?_⟩
    simp only [BlackBoardData.notify] at hn
    cases hl : lookupA d.key_to_listener k with
    | none => rw [hl] at hn; simp only [Option.some.injEq] at hn; simp [hl, ← hn]
    | some ls =>
        rw [hl] at hn
        have := mapM_option_eq_map (notifyOne d) (0, 0) ls invs0 hn
        simp [hl, this]
  · intro st v; rfl
  · intro k v; rfl
  · intro st; cases st <;> exact ⟨rfl, rfl⟩
  · intro st key component cb ud; cases st <;> rfl
  · intro st key component; cases st <;> rfl

/-- Witness for `set_notification_contract`: the concrete successful set of
the counterexample store discharges the hypothesis of the first conjunct. -/
theorem set_notification_contract_witness :
    ({ staleListenerStore with data := [(strBytes "k", Value.vInt 7)] } =
      { staleListenerStore with
          data := insertA staleListenerStore.data (strBytes "k") (Value.vInt 7) }) ∧
    ([((1 : Ptr), (5 : Ptr))] =
      ((lookupA staleListenerStore.key_to_listener (strBytes "k")).getD []).map
        (fun lk => (notifyOne staleListenerStore lk).getD (0, 0))) :=
  set_notification_contract.1 staleListenerStore (strBytes "k") (Value.vInt 7)
    { staleListenerStore with data := [(strBytes "k", Value.vInt 7)] }
    [(1, 5)] (by decide)

/-! ### Claim C9 — subscriber identity is the concatenated string -/

/-- Claim C9: subscriber identity is the string `key ++ "_" ++ component`,
not the pair.  For two distinct pairs whose concatenations collide, the
second `subscribe` overwrites the first subscriber's stored `user_data`
(both are keyed by the same listener id), and a subsequent set on the second
key resolves the shared id to the *first* capability in the listener table,
invoking the first subscription's callback with the second's `user_data`. -/
theorem subscriber_identity_is_concatenation :
    ∀ (k1 c1 k2 c2 : Str) (cb1 cb2 ud1 ud2 : Ptr) (v : Value),
      listenerKey k1 c1 = listenerKey k2 c2 →
      ¬(k1 = k2 ∧ c1 = c2) →
      cb1 ≠ 0 → cb2 ≠ 0 → ud1 ≠ 0 → ud2 ≠ 0 →
      (listenerKey k1 c1).length < CAPABILITY_FUNCTION_NAME_LEN →
      (∀ b ∈ listenerKey k1 c1, b ≠ 0) →
      lookupA (BlackBoardData.empty.subscribe k1 c1 cb1 ud1).user_data
          (listenerKey k1 c1) = some ud1 ∧
      lookupA ((BlackBoardData.empty.subscribe k1 c1 cb1 ud1).subscribe
            k2 c2 cb2 ud2).user_data (listenerKey k1 c1) = some ud2 ∧
      (((BlackBoardData.empty.subscribe k1 c1 cb1 ud1).subscribe
            k2 c2 cb2 ud2).set k2 v).map Prod.snd = some [(cb1, ud2)] := by
  intro k1 c1 k2 c2 cb1 cb2 ud1 ud2 v hcat hne hcb1 hcb2 hud1 hud2 hlen hz
  have hk : ¬(k1 = k2) := by
    intro hk12
    apply hne
    refine ⟨hk12, ?_⟩
    subst hk12
    exact listenerKey_inj_component k1 c1 c2 hcat
  have hlen2 : (listenerKey k2 c2).length < CAPABILITY_FUNCTION_NAME_LEN :=
    hcat ▸ hlen
  have hz2 : ∀ b ∈ listenerKey k2 c2, b ≠ 0 := hcat ▸ hz
  have hd1 : BlackBoardData.empty.subscribe k1 c1 cb1 ud1 =
      { data := [],
        listener := ⟨[Capability.make (listenerKey k2 c2) cb1]⟩,
        user_data := [(listenerKey k2 c2, ud1)],
        key_to_listener := [(k1, [listenerKey k2 c2])] } := by
    simp [BlackBoardData.subscribe, subscribeFinish, lookupA, insertA,
      Capabilities.add, Capabilities.empty, BlackBoardData.empty, hcb1, hud1,
      hcat]
  have hd2 : (BlackBoardData.empty.subscribe k1 c1 cb1 ud1).subscribe
        k2 c2 cb2 ud2 =
      { data := [],
        listener := ⟨[Capability.make (listenerKey k2 c2) cb1,
                      Capability.make (listenerKey k2 c2) cb2]⟩,
        user_data := [(listenerKey k2 c2, ud2)],
        key_to_listener := [(k1, [listenerKey k2 c2]),
                            (k2, [listenerKey k2 c2])] } := by
    rw [hd1]
    simp [BlackBoardData.subscribe, subscribeFinish, lookupA, insertA,
      Capabilities.add, hk, hcb2, hud2]
  refine ⟨?_, ?_, ?_⟩
  · rw [hd1]
    simp [lookupA, hcat]
  · rw [hd2]
    simp [lookupA, hcat]
  · rw [hd2]
    simp [BlackBoardData.set, BlackBoardData.notify, lookupA, insertA, hk,
      List.mapM.loop, notifyOne, Capabilities.get, notifyUd,
      capabilityName_make _ cb1 hlen2 hz2, Capability.make_func, hcb1, hud2]

/-- Witness for `subscriber_identity_is_concatenation`: the colliding pairs
`("a", "b_c")` and `("a_b", "c")`, callbacks 1 and 2, user data 3 and 4. -/
theorem subscriber_identity_is_concatenation_witness :
    lookupA (BlackBoardData.empty.subscribe (strBytes "a") (strBytes "b_c") 1 3).user_data
        (listenerKey (strBytes "a") (strBytes "b_c")) = some 3 ∧
    lookupA ((BlackBoardData.empty.subscribe (strBytes "a") (strBytes "b_c") 1 3).subscribe
          (strBytes "a_b") (strBytes "c") 2 4).user_data
        (listenerKey (strBytes "a") (strBytes "b_c")) = some 4 ∧
    (((BlackBoardData.empty.subscribe (strBytes "a") (strBytes "b_c") 1 3).subscribe
          (strBytes "a_b") (strBytes "c") 2 4).set (strBytes "a_b")
        (Value.vInt 7)).map Prod.snd = some [(1, 4)] :=
  subscriber_identity_is_concatenation (strBytes "a") (strBytes "b_c")
    (strBytes "a_b") (strBytes "c") 1 2 3 4 (Value.vInt 7)
    (by decide) (by decide) (by decide) (by decide) (by decide) (by decide)
    (by decide) (by decide)

/-! ### Claim C10 — unsubscribe leaves a stale capability entry -/

/-- Claim C10: after `subscribe(k, c, cb1, ud1); unsubscribe(k, c);
subscribe(k, c, cb2, ud2)`, a successful set on `k` invokes `cb1` — the
callback registered before the unsubscribe — and not `cb2`: `unsubscribe`
removes the listener-id mapping but leaves the old capability entry in the
listener table, and notification resolves the id to the first capability
with that name. -/
theorem unsubscribe_leaves_stale_capability :
    ∀ (k c : Str) (cb1 cb2 ud1 ud2 : Ptr) (v : Value),
      cb1 ≠ 0 → cb2 ≠ 0 → cb1 ≠ cb2 →
      (listenerKey k c).length < CAPABILITY_FUNCTION_NAME_LEN →
      (∀ b ∈ listenerKey k c, b ≠ 0) →
      ((((BlackBoardData.empty.subscribe k c cb1 ud1).unsubscribe k c).subscribe
            k c cb2 ud2).set k v).map (fun r => r.2.map Prod.fst) =
        some [cb1] := by
  intro k c cb1 cb2 ud1 ud2 v hcb1 hcb2 _hne hlen hz
  have hd2 : (BlackBoardData.empty.subscribe k c cb1 ud1).unsubscribe k c =
      { data := [],
        listener := ⟨[Capability.make (listenerKey k c) cb1]⟩,
        user_data := [],
        key_to_listener := [] } := by
    by_cases hud1 : ud1 = 0 <;>
      simp [BlackBoardData.subscribe, BlackBoardData.unsubscribe,
        subscribeFinish, lookupA, insertA, removeA, Capabilities.add,
        Capabilities.empty, BlackBoardData.empty, hcb1, hud1]
  have hd3 : ((BlackBoardData.empty.subscribe k c cb1 ud1).unsubscribe
        k c).subscribe k c cb2 ud2 =
      { data := [],
        listener := ⟨[Capability.make (listenerKey k c) cb1,
                      Capability.make (listenerKey k c) cb2]⟩,
        user_data := if ud2 ≠ 0 then [(listenerKey k c, ud2)] else [],
        key_to_listener := [(k, [listenerKey k c])] } := by
    rw [hd2]
    by_cases hud2 : ud2 = 0 <;>
      simp [BlackBoardData.subscribe, subscribeFinish, lookupA, insertA,
        Capabilities.add, hcb2, hud2]
  rw [hd3]
  by_cases hud2 : ud2 = 0 <;>
    simp [BlackBoardData.set, BlackBoardData.notify, lookupA, insertA,
      List.mapM.loop, notifyOne, Capabilities.get, notifyUd,
      capabilityName_make _ cb1 hlen hz, Capability.make_func, hcb1, hud2]

/-- Witness for `unsubscribe_leaves_stale_capability`: key `"k"`, component
`"c"`, callbacks 1 then 2. -/
theorem unsubscribe_leaves_stale_capability_witness :
    ((((BlackBoardData.empty.subscribe (strBytes "k") (strBytes "c") 1 3).unsubscribe
          (strBytes "k") (strBytes "c")).subscribe (strBytes "k") (strBytes "c")
          2 5).set (strBytes "k") (Value.vInt 7)).map
        (fun r => r.2.map Prod.fst) = some [1] :=
  unsubscribe_leaves_stale_capability (strBytes "k") (strBytes "c") 1 2 3 5
    (Value.vInt 7) (by decide) (by decide) (by decide) (by decide) (by decide)

end Rtime
